import Mathlib

set_option maxHeartbeats 1000000

/-! Shallow embedding of the simpl-site content-rendering pipeline
    (src/SimplSite.ts and src/utils/TemplateEngine.ts), followed by
    theorems checking the specification's claims against it. -/

/-- JavaScript-style Error value: a name used for error discrimination
    (Deno's NotFound errors have name "NotFound"; a plain new Error has
    name "Error") and a message. -/
structure Err where
  name : String
  message : String
  deriving DecidableEq, Repr

/-- Result of looking up a path in the modelled file system: present with
    text content, absent (a Deno read throws NotFound), or failing with
    some other I/O error (for example permission denied). -/
inductive FileResult where
  | found (content : String)
  | absent
  | ioError (e : Err)

/-- The modelled file system: a total map from paths to lookup results. -/
abbrev FS : Type := String → FileResult

/-- Deno.readTextFile / Deno.readFile on the modelled file system. -/
def denoRead (fs : FS) (p : String) : Except Err String :=
  match fs p with
  | .found c => .ok c
  | .absent => .error { name := "NotFound", message := "No such file or directory" }
  | .ioError e => .error e

/-- The std fs exists collaborator: true exactly when the file is present. -/
def fsExists (fs : FS) (p : String) : Bool :=
  match fs p with
  | .found _ => true
  | _ => false

/-- Model of JavaScript String.prototype.startsWith. -/
def jsStartsWith (s pre : String) : Bool := List.isPrefixOf pre.data s.data

/-- Model of JavaScript String.prototype.endsWith. -/
def jsEndsWith (s suf : String) : Bool := List.isSuffixOf suf.data s.data

/-- Model of JavaScript String.prototype.slice(n): drop the first n chars. -/
def jsDrop (s : String) (n : Nat) : String := String.mk (s.data.drop n)

/-- Model of JavaScript String.prototype.length. -/
def jsLength (s : String) : Nat := s.data.length

/-- Model of the std path join collaborator for the segment shapes used here:
    inserts a separator unless the left part already ends with one. -/
def joinP (a b : String) : String :=
  (if jsEndsWith a "/" then a else a ++ "/") ++ b

/-- Metadata is an open string-keyed record; modelled as a partial map. -/
abbrev Metadata : Type := String → Option String

/-- Shallow merge of two metadata maps matching the JS object spread in
    processContent: keys of the second map win. -/
def mergeMeta (m m2 : Metadata) : Metadata :=
  fun k =>
    match m2 k with
    | some v => some v
    | none => m k

/-- PluginContext passed to every transform hook (read-only snapshot). -/
structure PluginContext where
  contentType : String
  route : String
  templateDir : String
  contentSources : List (String × String)
  siteUrl : String

/-- TemplateContext threaded through extendTemplate hooks and into the
    template engine; body is set only when a layout wraps a rendered body. -/
structure TemplateContext where
  content : String
  metadata : Metadata
  route : String
  siteTitle : String
  body : Option String := none

/-- Result of a plugin transform hook. -/
structure TransformResult where
  content : String
  metadata : Option Metadata

/-- A plugin capability object: both hooks optional; hooks may fail. -/
structure Plugin where
  transform : Option (String → PluginContext → Except Err TransformResult) := none
  extendTemplate : Option (TemplateContext → Except Err TemplateContext) := none

/-- A plugin configuration entry: a name resolved through the registry and an
    opaque options value (modelled as a string). -/
structure PluginConfig where
  name : String
  options : String

/-- Model of the PluginRegistry collaborator (getPluginClass): maps a plugin
    name to a constructor, or nothing when the name is unknown, in which case
    getPluginClass throws and initializePlugins logs and skips the entry. -/
abbrev Registry : Type := String → Option (String → Plugin)

/-- A configured content source. -/
structure ContentSource where
  type : String
  path : String
  route : String

/-- External collaborators: the markdown parser, the Handlebars compiler, the
    MIME lookup table, and extname. -/
structure Collab where
  mdExec : String → String × Metadata
  compile : String → TemplateContext → String
  contentTypeOf : String → Option String
  extnameOf : String → String

/-- The SimplSite instance state after construction. -/
structure Site where
  contentSources : List ContentSource
  defaultContentType : String
  templateDir : String
  assetsDir : String
  siteUrl : String
  siteTitle : String
  plugins : List (String × Plugin)

/-- JS Map.get on an insertion-ordered association list. -/
def mapGet {α : Type} : List (String × α) → String → Option α
  | [], _ => none
  | (k2, v) :: rest, k => if k2 = k then some v else mapGet rest k

/-- JS Map.set: replaces the value in place when the key is present, appends
    a fresh entry otherwise. -/
def mapSet {α : Type} : List (String × α) → String → α → List (String × α)
  | [], k, v => [(k, v)]
  | (k2, v2) :: rest, k, v =>
      if k2 = k then (k2, v) :: rest else (k2, v2) :: mapSet rest k v

/-- The keys of a JS-Map model, in iteration order. -/
def mapKeys {α : Type} (m : List (String × α)) : List String := m.map Prod.fst

/-- Map.values iteration order over the plugin map. -/
def pluginValues (site : Site) : List Plugin := site.plugins.map Prod.snd

/-- Constructing the plugin for one config through the registry; none when the
    registry does not know the name (the thrown error is logged and the entry
    skipped). -/
def loadable (registry : Registry) (c : PluginConfig) : Option Plugin :=
  match registry c.name with
  | some mk => some (mk c.options)
  | none => none

/-- One iteration of the initializePlugins loop. -/
def initStep (registry : Registry) (m : List (String × Plugin)) (c : PluginConfig) :
    List (String × Plugin) :=
  match loadable registry c with
  | some p => mapSet m c.name p
  | none => m

/-- SimplSite.initializePlugins: fold the configured plugins into the map. -/
def initializePlugins (registry : Registry) (cfgs : List PluginConfig) :
    List (String × Plugin) :=
  cfgs.foldl (initStep registry) []

/-- The plugin produced by the last successfully-loading config with a given
    name; used to state the replacement semantics of initializePlugins. -/
def lastLoaded (registry : Registry) : List PluginConfig → String → Option Plugin
  | [], _ => none
  | c :: rest, n =>
      match lastLoaded registry rest n with
      | some p => some p
      | none => if c.name = n then loadable registry c else none

/-- TemplateEngine configuration with the constructor's defaults. -/
structure TemplateEngineConfig where
  baseDir : String
  extname : String := ".hbs"
  layoutsDir : String := "layouts/"
  partialsDir : String := "partials/"
  defaultLayout : String := "base"

/-- The compiled-template cache: resolved path to compiled render function. -/
abbrev Cache : Type := List (String × (TemplateContext → String))

/-- Resolved path of a body template: baseDir/name.ext. -/
def templateFilePath (cfg : TemplateEngineConfig) (templateName : String) : String :=
  joinP cfg.baseDir (templateName ++ cfg.extname)

/-- Resolved path of the default layout: baseDir/layoutsDir/defaultLayout.ext. -/
def layoutFilePath (cfg : TemplateEngineConfig) : String :=
  joinP (joinP cfg.baseDir cfg.layoutsDir) (cfg.defaultLayout ++ cfg.extname)

/-- Fetch a compiled template from the cache, or read, compile and cache it
    (the compiledTemplates memoization of TemplateEngine). -/
def getCompiled (env : Collab) (fs : FS) (cache : Cache) (p : String) :
    Except Err (TemplateContext → String) × Cache :=
  match mapGet cache p with
  | some t => (.ok t, cache)
  | none =>
      match denoRead fs p with
      | .ok src => (.ok (env.compile src), cache ++ [(p, env.compile src)])
      | .error e => (.error e, cache)

/-- TemplateEngine.render: resolve template and layout paths, fail with a plain
    Error when the template file is missing, render the body, and wrap it in
    the layout when a layout file exists; threads the compiled-template
    cache through. -/
def renderTemplate (env : Collab) (cfg : TemplateEngineConfig) (fs : FS)
    (cache : Cache) (templateName : String) (context : TemplateContext) :
    Except Err String × Cache :=
  let templatePath := templateFilePath cfg templateName
  let layoutPath := layoutFilePath cfg
  if fsExists fs templatePath = false then
    (.error { name := "Error", message := "Template not found: " ++ templatePath }, cache)
  else
    match getCompiled env fs cache templatePath with
    | (.error e, cache1) => (.error e, cache1)
    | (.ok template, cache1) =>
        let result := template context
        if fsExists fs layoutPath then
          match getCompiled env fs cache1 layoutPath with
          | (.error e, cache2) => (.error e, cache2)
          | (.ok layout, cache2) =>
              (.ok (layout { context with body := some result }), cache2)
        else
          (.ok result, cache1)

/-- Array.prototype.find over the content sources by type. -/
def findSource (site : Site) (type : String) : Option ContentSource :=
  site.contentSources.find? (fun source => source.type == type)

/-- SimplSite.getContent: resolve the content source by type (a plain Error
    when the type is unknown) and read sourcePath/path. -/
def getContent (site : Site) (fs : FS) (path type : String) : Except Err String :=
  match findSource site type with
  | none => .error { name := "Error", message := "Unknown content type: " ++ type }
  | some source => denoRead fs (joinP source.path path)

/-- The PluginContext built once per processContent call. -/
def pluginCtx (site : Site) (type route : String) : PluginContext :=
  { contentType := type
    route := route
    templateDir := site.templateDir
    contentSources := site.contentSources.map (fun source => (source.type, source.path))
    siteUrl := site.siteUrl }

/-- The transform-hook loop of processContent: plugins in registration order,
    content replaced by each hook's result, returned metadata shallow-merged
    into the accumulated metadata; hookless plugins are skipped. -/
def transformFold (ctx : PluginContext) :
    List Plugin → String → Metadata → Except Err (String × Metadata)
  | [], c, m => .ok (c, m)
  | p :: ps, c, m =>
      match p.transform with
      | none => transformFold ctx ps c m
      | some t =>
          match t c ctx with
          | .error e => .error e
          | .ok r =>
              transformFold ctx ps r.content
                (match r.metadata with
                 | some m2 => mergeMeta m m2
                 | none => m)

/-- SimplSite.processContent: markdown parse, then the plugin transform
    chain. -/
def processContent (env : Collab) (site : Site) (content type route : String) :
    Except Err (String × Metadata) :=
  let parsed := env.mdExec content
  transformFold (pluginCtx site type route) (pluginValues site) parsed.1 parsed.2

/-- The extendTemplate loop of renderContent: each hook replaces the whole
    template context. -/
def extendFold : List Plugin → TemplateContext → Except Err TemplateContext
  | [], tc => .ok tc
  | p :: ps, tc =>
      match p.extendTemplate with
      | none => extendFold ps tc
      | some f =>
          match f tc with
          | .error e => .error e
          | .ok tc2 => extendFold ps tc2

/-- The TemplateEngine configuration SimplSite's constructor builds: only
    baseDir is supplied, the other fields keep their defaults. -/
def siteEngineConfig (site : Site) : TemplateEngineConfig :=
  { baseDir := site.templateDir }

/-- The try-block of renderContent: load content, process it, run the
    extendTemplate chain, render the template. -/
def renderAttempt (env : Collab) (site : Site) (fs : FS) (cache : Cache)
    (path type route : String) : Except Err String × Cache :=
  match getContent site fs path type with
  | .error e => (.error e, cache)
  | .ok content =>
      match processContent env site content type route with
      | .error e => (.error e, cache)
      | .ok pm =>
          match extendFold (pluginValues site)
              { content := pm.1, metadata := pm.2, route := route,
                siteTitle := site.siteTitle } with
          | .error e => (.error e, cache)
          | .ok tc => renderTemplate env (siteEngineConfig site) fs cache type tc

/-- The hard-fallback literal returned when the 404 retry is unavailable. -/
def notFoundFallback : String :=
  "<h1>404 - Page Not Found</h1><p>The requested page could not be found.</p>"

/-- SimplSite.renderContent: on success status 200; on a NotFound failure for
    a path that is not already 404.md, retry once with 404.md under the
    default content type at route /404 and return the retry's content with
    status 404; otherwise return the hard-fallback literal with status 404. -/
def renderContent (env : Collab) (site : Site) (fs : FS) (cache : Cache)
    (path type route : String) : (String × Nat) × Cache :=
  match renderAttempt env site fs cache path type route with
  | (.ok c, cache1) => ((c, 200), cache1)
  | (.error e, cache1) =>
      if h : e.name = "NotFound" ∧ path ≠ "404.md" then
        let retry := renderContent env site fs cache1 "404.md" site.defaultContentType "/404"
        ((retry.1.1, 404), retry.2)
      else
        ((notFoundFallback, 404), cache1)
termination_by (if path = "404.md" then 0 else 1)
decreasing_by
  simp [h.2]

/-- Instrumentation of renderContent that counts how many recursive 404-page
    retries are taken; the recursion structure is identical. -/
def renderRetryCount (env : Collab) (site : Site) (fs : FS) (cache : Cache)
    (path type route : String) : Nat :=
  match renderAttempt env site fs cache path type route with
  | (.ok _, _) => 0
  | (.error e, cache1) =>
      if h : e.name = "NotFound" ∧ path ≠ "404.md" then
        1 + renderRetryCount env site fs cache1 "404.md" site.defaultContentType "/404"
      else 0
termination_by (if path = "404.md" then 0 else 1)
decreasing_by
  simp [h.2]

/-- SimplSite.serveStaticFile: read assetsDir/path; a NotFound failure maps to
    none (fall through to content rendering); any other failure is rethrown. -/
def serveStaticFile (env : Collab) (site : Site) (fs : FS) (path : String) :
    Except Err (Option (String × String)) :=
  let fullPath := joinP site.assetsDir path
  match denoRead fs fullPath with
  | .ok content =>
      .ok (some (content,
        (env.contentTypeOf (env.extnameOf fullPath)).getD "application/octet-stream"))
  | .error e =>
      if e.name = "NotFound" then .ok none else .error e

/-- path.replace of one leading slash in handleRequest. -/
def stripLeadingSlash (s : String) : String :=
  if jsStartsWith s "/" then jsDrop s 1 else s

/-- handleRequest's path normalization: strip one leading slash, then map the
    empty path to index. -/
def normalizePath (raw : String) : String :=
  let p := stripLeadingSlash raw
  if p = "" then "index" else p

/-- handleRequest's content-file suffixing: append .md unless present. -/
def ensureMd (s : String) : String :=
  if jsEndsWith s ".md" then s else s ++ ".md"

/-- The content-source for-loop of handleRequest: the first source whose route
    is a string prefix of the original path wins and its route is stripped
    from the suffixed path; with no match the default content type renders the
    full suffixed path. -/
def routeLoop (env : Collab) (site : Site) (fs : FS) (cache : Cache)
    (sources : List ContentSource) (mdPath originalPath : String) :
    (String × Nat) × Cache :=
  match sources with
  | [] =>
      renderContent env site fs cache mdPath site.defaultContentType ("/" ++ originalPath)
  | source :: rest =>
      if jsStartsWith originalPath source.route then
        renderContent env site fs cache (jsDrop mdPath (jsLength source.route))
          source.type ("/" ++ originalPath)
      else
        routeLoop env site fs cache rest mdPath originalPath

/-- The response produced by handleRequest. -/
structure SiteResponse where
  content : String
  contentType : String
  status : Nat

/-- SimplSite.handleRequest: normalize, try the static asset, otherwise suffix
    the path and dispatch through the content-source loop. A failure rethrown
    by serveStaticFile propagates out uncaught. -/
def handleRequest (env : Collab) (site : Site) (fs : FS) (cache : Cache)
    (rawPath : String) : Except Err (SiteResponse × Cache) :=
  let path := normalizePath rawPath
  match serveStaticFile env site fs path with
  | .error e => .error e
  | .ok (some sf) =>
      .ok ({ content := sf.1, contentType := sf.2, status := 200 }, cache)
  | .ok none =>
      let originalPath := path
      let mdPath := ensureMd path
      let r := routeLoop env site fs cache site.contentSources mdPath originalPath
      .ok ({ content := r.1.1, contentType := "text/html", status := r.1.2 }, r.2)

/-! Helper lemmas and claim theorems. -/

/-- Unfolding equation for renderContent. -/
theorem renderContent_unfold (env : Collab) (site : Site) (fs : FS) (cache : Cache)
    (path type route : String) :
    renderContent env site fs cache path type route =
      match renderAttempt env site fs cache path type route with
      | (.ok c, cache1) => ((c, 200), cache1)
      | (.error e, cache1) =>
          if e.name = "NotFound" ∧ path ≠ "404.md" then
            (((renderContent env site fs cache1 "404.md" site.defaultContentType "/404").1.1, 404),
              (renderContent env site fs cache1 "404.md" site.defaultContentType "/404").2)
          else
            ((notFoundFallback, 404), cache1) := by
  rw [renderContent]
  rfl

/-- Unfolding equation for renderRetryCount. -/
theorem renderRetryCount_unfold (env : Collab) (site : Site) (fs : FS) (cache : Cache)
    (path type route : String) :
    renderRetryCount env site fs cache path type route =
      match renderAttempt env site fs cache path type route with
      | (.ok _, _) => 0
      | (.error e, _cache1) =>
          if e.name = "NotFound" ∧ path ≠ "404.md" then
            1 + renderRetryCount env site fs _cache1 "404.md" site.defaultContentType "/404"
          else 0 := by
  rw [renderRetryCount]
  rfl

/-- renderContent only ever reports status 200 or status 404. -/
theorem renderContent_status (env : Collab) (site : Site) (fs : FS) (cache : Cache)
    (path type route : String) :
    (renderContent env site fs cache path type route).1.2 = 200 ∨
      (renderContent env site fs cache path type route).1.2 = 404 := by
  rw [renderContent_unfold]
  split
  · exact Or.inl rfl
  · split
    · exact Or.inr rfl
    · exact Or.inr rfl

/-- A concrete collaborator set used by the evaluation witnesses. -/
def emptyMeta : Metadata := fun _ => none

def envX : Collab :=
  { mdExec := fun s => (s, emptyMeta)
    compile := fun src ctx => src ++ ctx.content ++ ctx.body.getD ""
    contentTypeOf := fun _ => none
    extnameOf := fun _ => "" }

/-- A file system in which every read reports NotFound. -/
def fsAllAbsent : FS := fun _ => .absent

/-- A site with no content sources and no plugins. -/
def siteNoSources : Site :=
  { contentSources := []
    defaultContentType := "md"
    templateDir := "templates"
    assetsDir := "assets"
    siteUrl := "u"
    siteTitle := "t"
    plugins := [] }

/-- C1: when the render attempt for a path fails, renderContent retries the
    fixed path 404.md under the default content type at route /404 and returns
    that retry's content with status 404 exactly when the failure is NotFound
    and the path is not already 404.md; otherwise it returns the fixed
    hard-fallback literal with status 404. -/
theorem renderContent_failure_branches (env : Collab) (site : Site) (fs : FS)
    (cache : Cache) (path type route : String) (e : Err) (cache1 : Cache)
    (hatt : renderAttempt env site fs cache path type route = (.error e, cache1)) :
    (e.name = "NotFound" ∧ path ≠ "404.md" →
      renderContent env site fs cache path type route =
        (((renderContent env site fs cache1 "404.md" site.defaultContentType "/404").1.1, 404),
          (renderContent env site fs cache1 "404.md" site.defaultContentType "/404").2))
    ∧ ((e.name ≠ "NotFound" ∨ path = "404.md") →
      renderContent env site fs cache path type route = ((notFoundFallback, 404), cache1)) := by
  constructor
  · intro h
    rw [renderContent_unfold, hatt]
    simp only [if_pos h]
  · intro h
    rw [renderContent_unfold, hatt]
    have hn : ¬ (e.name = "NotFound" ∧ path ≠ "404.md") := by
      rcases h with h1 | h2
      · exact fun hc => h1 hc.1
      · exact fun hc => hc.2 h2
    simp only [if_neg hn]

/-- C1 witness: a concrete failing render (unknown content type, so not a
    NotFound failure) lands in the hard-fallback branch. -/
theorem renderContent_failure_branches_witness :
    renderContent envX siteNoSources fsAllAbsent [] "p.md" "post" "/p" =
      ((notFoundFallback, 404), []) :=
  (renderContent_failure_branches envX siteNoSources fsAllAbsent [] "p.md" "post" "/p"
      { name := "Error", message := "Unknown content type: post" } [] rfl).2
    (Or.inl (by decide))

/-- A site with a single content source of the default type, rooted at
    content with an empty route. -/
def siteOne : Site :=
  { contentSources := [{ type := "md", path := "content", route := "" }]
    defaultContentType := "md"
    templateDir := "templates"
    assetsDir := "assets"
    siteUrl := "u"
    siteTitle := "t"
    plugins := [] }

/-- C2 (amended): when the content file is absent, the rendered path is not
    itself 404.md, and the 404 page file is also absent, renderContent returns
    the hard-fallback literal with status 404 after exactly one recursive
    retry. -/
theorem renderContent_missing_both (env : Collab) (site : Site) (fs : FS)
    (cache : Cache) (path type route : String) (src : ContentSource)
    (hsrc : findSource site type = some src)
    (hmiss : fs (joinP src.path path) = .absent)
    (hpath : path ≠ "404.md")
    (h404 : match findSource site site.defaultContentType with
      | some dsrc => fs (joinP dsrc.path "404.md") = FileResult.absent
      | none => True) :
    renderContent env site fs cache path type route = ((notFoundFallback, 404), cache)
    ∧ renderRetryCount env site fs cache path type route = 1 := by
  have hatt : renderAttempt env site fs cache path type route =
      (.error { name := "NotFound", message := "No such file or directory" }, cache) := by
    simp [renderAttempt, getContent, hsrc, denoRead, hmiss]
  have hretry :
      renderContent env site fs cache "404.md" site.defaultContentType "/404" =
        ((notFoundFallback, 404), cache)
      ∧ renderRetryCount env site fs cache "404.md" site.defaultContentType "/404" = 0 := by
    cases hd : findSource site site.defaultContentType with
    | none =>
      have hatt2 : renderAttempt env site fs cache "404.md" site.defaultContentType "/404" =
          (.error { name := "Error",
                    message := "Unknown content type: " ++ site.defaultContentType }, cache) := by
        simp [renderAttempt, getContent, hd]
      have hn : ¬ (("Error" : String) = "NotFound" ∧ ("404.md" : String) ≠ "404.md") := by
        decide
      constructor
      · rw [renderContent_unfold, hatt2]
        simp only [if_neg hn]
      · rw [renderRetryCount_unfold, hatt2]
        simp only [if_neg hn]
    | some dsrc =>
      rw [hd] at h404
      have hatt2 : renderAttempt env site fs cache "404.md" site.defaultContentType "/404" =
          (.error { name := "NotFound", message := "No such file or directory" }, cache) := by
        simp [renderAttempt, getContent, hd, denoRead, h404]
      constructor
      · rw [renderContent_unfold, hatt2]
        simp
      · rw [renderRetryCount_unfold, hatt2]
        simp
  constructor
  · rw [renderContent_unfold, hatt]
    simp [hpath, hretry.1]
  · rw [renderRetryCount_unfold, hatt]
    simp [hpath, hretry.2]

/-- C2 witness: one concrete absent page over a site whose 404 page is also
    absent takes exactly one retry and falls back hard. -/
theorem renderContent_missing_both_witness :
    renderContent envX siteOne fsAllAbsent [] "p.md" "md" "/p" = ((notFoundFallback, 404), [])
    ∧ renderRetryCount envX siteOne fsAllAbsent [] "p.md" "md" "/p" = 1 :=
  renderContent_missing_both envX siteOne fsAllAbsent [] "p.md" "md" "/p"
    { type := "md", path := "content", route := "" } rfl rfl (by decide) rfl

/-- C2 counterexample: rendering the path 404.md itself with both the content
    file and the 404 page file absent takes zero recursive retries, not one;
    the guard suppresses the retry entirely for that path. -/
theorem renderContent_404_itself_zero_retries :
    fsAllAbsent (joinP "content" "404.md") = FileResult.absent
    ∧ renderRetryCount envX siteOne fsAllAbsent [] "404.md" "md" "/404" = 0 := by
  constructor
  · rfl
  · have hatt : renderAttempt envX siteOne fsAllAbsent [] "404.md" "md" "/404" =
        (.error { name := "NotFound", message := "No such file or directory" }, []) := rfl
    rw [renderRetryCount_unfold, hatt]
    simp

/-- C7: an unknown content type makes getContent fail with a plain
    configuration Error naming the type; that failure never triggers the
    404-page retry and the enclosing render goes directly to the
    hard-fallback branch. -/
theorem getContent_unknown_type (env : Collab) (site : Site) (fs : FS) (cache : Cache)
    (path type route : String)
    (h : findSource site type = none) :
    getContent site fs path type =
        .error { name := "Error", message := "Unknown content type: " ++ type }
    ∧ ("Error" : String) ≠ "NotFound"
    ∧ renderContent env site fs cache path type route = ((notFoundFallback, 404), cache)
    ∧ renderRetryCount env site fs cache path type route = 0 := by
  have hg : getContent site fs path type =
      .error { name := "Error", message := "Unknown content type: " ++ type } := by
    simp [getContent, h]
  have hatt : renderAttempt env site fs cache path type route =
      (.error { name := "Error", message := "Unknown content type: " ++ type }, cache) := by
    simp [renderAttempt, hg]
  refine ⟨hg, by decide, ?_, ?_⟩
  · rw [renderContent_unfold, hatt]
    simp
  · rw [renderRetryCount_unfold, hatt]
    simp

/-- C7 witness: a concrete site with no source of type wiki. -/
theorem getContent_unknown_type_witness :
    getContent siteNoSources fsAllAbsent "q.md" "wiki" =
        .error { name := "Error", message := "Unknown content type: wiki" }
    ∧ ("Error" : String) ≠ "NotFound"
    ∧ renderContent envX siteNoSources fsAllAbsent [] "q.md" "wiki" "/q" =
        ((notFoundFallback, 404), [])
    ∧ renderRetryCount envX siteNoSources fsAllAbsent [] "q.md" "wiki" "/q" = 0 :=
  getContent_unknown_type envX siteNoSources fsAllAbsent [] "q.md" "wiki" "/q" rfl

/-- C9: when the content file exists but the template file for the content
    type does not, the render fails with a plain Error (name Error, not
    NotFound), so renderContent returns the hard-fallback literal with status
    404 without attempting the 404-page retry. -/
theorem renderContent_missing_template (env : Collab) (site : Site) (fs : FS)
    (cache : Cache) (path type route : String) (src : ContentSource)
    (content : String) (pm : String × Metadata) (tc : TemplateContext)
    (hsrc : findSource site type = some src)
    (hfile : fs (joinP src.path path) = .found content)
    (hproc : processContent env site content type route = .ok pm)
    (hext : extendFold (pluginValues site)
        { content := pm.1, metadata := pm.2, route := route,
          siteTitle := site.siteTitle } = .ok tc)
    (htmpl : fsExists fs (templateFilePath (siteEngineConfig site) type) = false) :
    renderContent env site fs cache path type route = ((notFoundFallback, 404), cache)
    ∧ renderRetryCount env site fs cache path type route = 0 := by
  have hatt : renderAttempt env site fs cache path type route =
      (.error { name := "Error",
                message := "Template not found: " ++
                  templateFilePath (siteEngineConfig site) type }, cache) := by
    simp [renderAttempt, getContent, hsrc, denoRead, hfile, hproc, hext,
      renderTemplate, htmpl]
  constructor
  · rw [renderContent_unfold, hatt]
    simp
  · rw [renderRetryCount_unfold, hatt]
    simp

/-- A file system holding only the content file content/p.md. -/
def fsContentOnly : FS :=
  fun p => if p = "content/p.md" then .found "hi" else .absent

/-- C9 witness: a present page with no template falls back hard with no
    retry. -/
theorem renderContent_missing_template_witness :
    renderContent envX siteOne fsContentOnly [] "p.md" "md" "/p" =
        ((notFoundFallback, 404), [])
    ∧ renderRetryCount envX siteOne fsContentOnly [] "p.md" "md" "/p" = 0 :=
  renderContent_missing_template envX siteOne fsContentOnly [] "p.md" "md" "/p"
    { type := "md", path := "content", route := "" } "hi" ("hi", emptyMeta)
    { content := "hi", metadata := emptyMeta, route := "/p", siteTitle := "t" }
    rfl rfl rfl rfl rfl

/-- Every route-loop outcome carries status 200 or 404. -/
theorem routeLoop_status (env : Collab) (site : Site) (fs : FS) (cache : Cache)
    (sources : List ContentSource) (mdPath originalPath : String) :
    (routeLoop env site fs cache sources mdPath originalPath).1.2 = 200 ∨
      (routeLoop env site fs cache sources mdPath originalPath).1.2 = 404 := by
  induction sources with
  | nil =>
    simpa [routeLoop] using
      renderContent_status env site fs cache mdPath site.defaultContentType
        ("/" ++ originalPath)
  | cons s rest ih =>
    by_cases hs : jsStartsWith originalPath s.route = true
    · simpa [routeLoop, hs] using
        renderContent_status env site fs cache (jsDrop mdPath (jsLength s.route)) s.type
          ("/" ++ originalPath)
    · simpa [routeLoop, hs] using ih

/-- C3 (amended): whenever the static-asset read at the normalized path does
    not fail with a non-NotFound I/O error, handleRequest returns a complete
    response with status 200 or 404 -- failures in content loading, plugin
    hooks and template rendering are all absorbed by the render fallback. -/
theorem handleRequest_total_status (env : Collab) (site : Site) (fs : FS)
    (cache : Cache) (raw : String)
    (hstatic : match fs (joinP site.assetsDir (normalizePath raw)) with
      | FileResult.ioError e => e.name = "NotFound"
      | _ => True) :
    ∃ resp cache2, handleRequest env site fs cache raw = .ok (resp, cache2)
      ∧ (resp.status = 200 ∨ resp.status = 404) := by
  cases hfs : fs (joinP site.assetsDir (normalizePath raw)) with
  | found c =>
    have hs : serveStaticFile env site fs (normalizePath raw) =
        .ok (some (c, (env.contentTypeOf
          (env.extnameOf (joinP site.assetsDir (normalizePath raw)))).getD
            "application/octet-stream")) := by
      simp [serveStaticFile, denoRead, hfs]
    have heq : handleRequest env site fs cache raw =
        .ok ({ content := c,
               contentType := (env.contentTypeOf
                 (env.extnameOf (joinP site.assetsDir (normalizePath raw)))).getD
                   "application/octet-stream",
               status := 200 }, cache) := by
      simp [handleRequest, hs]
    exact ⟨_, _, heq, Or.inl rfl⟩
  | absent =>
    have hs : serveStaticFile env site fs (normalizePath raw) = .ok none := by
      simp [serveStaticFile, denoRead, hfs]
    have heq : handleRequest env site fs cache raw =
        .ok ({ content := (routeLoop env site fs cache site.contentSources
                 (ensureMd (normalizePath raw)) (normalizePath raw)).1.1,
               contentType := "text/html",
               status := (routeLoop env site fs cache site.contentSources
                 (ensureMd (normalizePath raw)) (normalizePath raw)).1.2 },
             (routeLoop env site fs cache site.contentSources
               (ensureMd (normalizePath raw)) (normalizePath raw)).2) := by
      simp [handleRequest, hs]
    exact ⟨_, _, heq, routeLoop_status env site fs cache site.contentSources
      (ensureMd (normalizePath raw)) (normalizePath raw)⟩
  | ioError e =>
    rw [hfs] at hstatic
    have hs : serveStaticFile env site fs (normalizePath raw) = .ok none := by
      simp [serveStaticFile, denoRead, hfs, hstatic]
    have heq : handleRequest env site fs cache raw =
        .ok ({ content := (routeLoop env site fs cache site.contentSources
                 (ensureMd (normalizePath raw)) (normalizePath raw)).1.1,
               contentType := "text/html",
               status := (routeLoop env site fs cache site.contentSources
                 (ensureMd (normalizePath raw)) (normalizePath raw)).1.2 },
             (routeLoop env site fs cache site.contentSources
               (ensureMd (normalizePath raw)) (normalizePath raw)).2) := by
      simp [handleRequest, hs]
    exact ⟨_, _, heq, routeLoop_status env site fs cache site.contentSources
      (ensureMd (normalizePath raw)) (normalizePath raw)⟩

/-- C3 witness: with every read NotFound the handler still answers 200/404. -/
theorem handleRequest_total_status_witness :
    ∃ resp cache2,
      handleRequest envX siteNoSources fsAllAbsent [] "/p" = .ok (resp, cache2)
      ∧ (resp.status = 200 ∨ resp.status = 404) :=
  handleRequest_total_status envX siteNoSources fsAllAbsent [] "/p" trivial

/-- A file system whose asset read fails with a permission error. -/
def fsDenied : FS :=
  fun p =>
    if p = "assets/boom" then .ioError { name := "PermissionDenied", message := "denied" }
    else .absent

/-- C3 counterexample: a non-NotFound static-read failure is rethrown by
    serveStaticFile and propagates out of handleRequest unhandled, so not
    every request ends in a 200/404 response. -/
theorem handleRequest_error_escapes :
    handleRequest envX siteNoSources fsDenied [] "/boom" =
      .error { name := "PermissionDenied", message := "denied" } := rfl

/-- The route loop is first-match search over the configured sources. -/
theorem routeLoop_find (env : Collab) (site : Site) (fs : FS) (cache : Cache)
    (sources : List ContentSource) (mdPath originalPath : String) :
    routeLoop env site fs cache sources mdPath originalPath =
      match sources.find? (fun source => jsStartsWith originalPath source.route) with
      | some source =>
          renderContent env site fs cache (jsDrop mdPath (jsLength source.route)) source.type
            ("/" ++ originalPath)
      | none =>
          renderContent env site fs cache mdPath site.defaultContentType
            ("/" ++ originalPath) := by
  induction sources with
  | nil => simp [routeLoop]
  | cons s rest ih =>
    by_cases hs : jsStartsWith originalPath s.route = true
    · simp [routeLoop, List.find?, hs]
    · simp [routeLoop, List.find?, hs, ih]

/-- C4: handleRequest selects the first configured source whose route is a
    string prefix of the pre-suffix path, strips that route prefix from the
    suffixed path before rendering, and with no matching route renders the
    full suffixed path under the default content type. -/
theorem handleRequest_first_match (env : Collab) (site : Site) (fs : FS)
    (cache : Cache) :
    (∀ (sources : List ContentSource) (mdPath originalPath : String),
      routeLoop env site fs cache sources mdPath originalPath =
        match sources.find? (fun source => jsStartsWith originalPath source.route) with
        | some source =>
            renderContent env site fs cache (jsDrop mdPath (jsLength source.route))
              source.type ("/" ++ originalPath)
        | none =>
            renderContent env site fs cache mdPath site.defaultContentType
              ("/" ++ originalPath))
    ∧ (∀ raw : String, serveStaticFile env site fs (normalizePath raw) = .ok none →
      handleRequest env site fs cache raw =
        .ok ({ content := (routeLoop env site fs cache site.contentSources
                 (ensureMd (normalizePath raw)) (normalizePath raw)).1.1,
               contentType := "text/html",
               status := (routeLoop env site fs cache site.contentSources
                 (ensureMd (normalizePath raw)) (normalizePath raw)).1.2 },
             (routeLoop env site fs cache site.contentSources
               (ensureMd (normalizePath raw)) (normalizePath raw)).2)) := by
  constructor
  · exact routeLoop_find env site fs cache
  · intro raw hstatic
    simp [handleRequest, hstatic]

/-- A site with two sources whose routes overlap: blog before blog/x. -/
def siteTwo : Site :=
  { contentSources := [{ type := "a", path := "pa", route := "blog" },
                       { type := "b", path := "pb", route := "blog/x" }]
    defaultContentType := "md"
    templateDir := "templates"
    assetsDir := "assets"
    siteUrl := "u"
    siteTitle := "t"
    plugins := [] }

/-- C4 witness: the request blog/x/post picks the first matching route blog
    (not the more specific blog/x) and strips it from the suffixed path. -/
theorem handleRequest_first_match_witness :
    routeLoop envX siteTwo fsAllAbsent [] siteTwo.contentSources "blog/x/post.md"
        "blog/x/post" =
      renderContent envX siteTwo fsAllAbsent [] "/x/post.md" "a" "/blog/x/post"
    ∧ handleRequest envX siteTwo fsAllAbsent [] "/blog/x/post" =
      .ok ({ content := (routeLoop envX siteTwo fsAllAbsent [] siteTwo.contentSources
               "blog/x/post.md" "blog/x/post").1.1,
             contentType := "text/html",
             status := (routeLoop envX siteTwo fsAllAbsent [] siteTwo.contentSources
               "blog/x/post.md" "blog/x/post").1.2 },
           (routeLoop envX siteTwo fsAllAbsent [] siteTwo.contentSources
             "blog/x/post.md" "blog/x/post").2) :=
  ⟨(handleRequest_first_match envX siteTwo fsAllAbsent []).1 siteTwo.contentSources
      "blog/x/post.md" "blog/x/post",
   (handleRequest_first_match envX siteTwo fsAllAbsent []).2 "/blog/x/post" rfl⟩

/-- C5: the transform chain runs plugins in registration order -- a plugin
    without a transform hook is skipped with no effect, content is replaced by
    each hook's returned content, returned metadata is shallow-merged with
    later writes winning per key (for plugins A then B both writing key x the
    final value is B's) -- and processContent is exactly the markdown parse
    followed by this chain. -/
theorem processContent_plugin_chain (ctx : PluginContext) :
    (∀ (l1 l2 : List Plugin) (p : Plugin) (c : String) (m : Metadata),
      p.transform = none →
      transformFold ctx (l1 ++ p :: l2) c m = transformFold ctx (l1 ++ l2) c m)
    ∧ (∀ (A B : Plugin)
        (tA tB : String → PluginContext → Except Err TransformResult)
        (c cA cB : String) (m mA mB : Metadata) (vB : String),
      A.transform = some tA → B.transform = some tB →
      tA c ctx = .ok { content := cA, metadata := some mA } →
      tB cA ctx = .ok { content := cB, metadata := some mB } →
      mB "x" = some vB →
      transformFold ctx [A, B] c m = .ok (cB, mergeMeta (mergeMeta m mA) mB)
        ∧ mergeMeta (mergeMeta m mA) mB "x" = some vB)
    ∧ (∀ (env : Collab) (site : Site) (content type route : String),
      processContent env site content type route =
        transformFold (pluginCtx site type route) (pluginValues site)
          (env.mdExec content).1 (env.mdExec content).2) := by
  refine ⟨?_, ?_, ?_⟩
  · intro l1 l2 p c m hp
    induction l1 generalizing c m with
    | nil => simp [transformFold, hp]
    | cons q l1 ih =>
      cases hq : q.transform with
      | none =>
        simp only [List.cons_append, transformFold, hq]
        exact ih c m
      | some t =>
        simp only [List.cons_append, transformFold, hq]
        cases htc : t c ctx with
        | error e => rfl
        | ok r => exact ih r.content _
  · intro A B tA tB c cA cB m mA mB vB hA hB htA htB hx
    constructor
    · simp [transformFold, hA, hB, htA, htB]
    · simp [mergeMeta, hx]
  · intro env site content type route
    rfl

/-- Concrete plugin context and plugins for the chain witness. -/
def ctx0 : PluginContext :=
  { contentType := "md", route := "/p", templateDir := "templates",
    contentSources := [], siteUrl := "u" }

def metaA : Metadata := fun k => if k = "x" then some "a" else none

def metaB : Metadata := fun k => if k = "x" then some "b" else none

def plugA : Plugin :=
  { transform := some (fun c _ => .ok { content := c ++ "A", metadata := some metaA }) }

def plugB : Plugin :=
  { transform := some (fun c _ => .ok { content := c ++ "B", metadata := some metaB }) }

def plugNoop : Plugin := {}

/-- C5 witness: a hookless plugin is skipped, and for plugins A then B both
    writing key x the final value is B's. -/
theorem processContent_plugin_chain_witness :
    transformFold ctx0 ([] ++ plugNoop :: []) "c" emptyMeta =
      transformFold ctx0 ([] ++ []) "c" emptyMeta
    ∧ (transformFold ctx0 [plugA, plugB] "c" emptyMeta =
        .ok ("cAB", mergeMeta (mergeMeta emptyMeta metaA) metaB)
      ∧ mergeMeta (mergeMeta emptyMeta metaA) metaB "x" = some "b") :=
  ⟨(processContent_plugin_chain ctx0).1 [] [] plugNoop "c" emptyMeta rfl,
   (processContent_plugin_chain ctx0).2.1 plugA plugB _ _ "c" "cA" "cAB" emptyMeta
     metaA metaB "b" rfl rfl rfl rfl rfl⟩

/-- C6: starting from an empty cache, with the body template file present, the
    final output of a template render is the compiled layout applied to the
    context extended with the rendered body when a layout file exists, and is
    exactly the rendered body when no layout file exists. -/
theorem renderTemplate_layout_composition (env : Collab) (cfg : TemplateEngineConfig)
    (fs : FS) (templateName : String) (ctx : TemplateContext) (tsrc : String)
    (ht : fs (templateFilePath cfg templateName) = .found tsrc) :
    (∀ lsrc, fs (layoutFilePath cfg) = .found lsrc →
      (renderTemplate env cfg fs [] templateName ctx).1 =
        .ok (env.compile lsrc { ctx with body := some (env.compile tsrc ctx) }))
    ∧ (fsExists fs (layoutFilePath cfg) = false →
      (renderTemplate env cfg fs [] templateName ctx).1 = .ok (env.compile tsrc ctx)) := by
  have hex : fsExists fs (templateFilePath cfg templateName) = true := by
    simp [fsExists, ht]
  constructor
  · intro lsrc hl
    have hexl : fsExists fs (layoutFilePath cfg) = true := by
      simp [fsExists, hl]
    by_cases heq : templateFilePath cfg templateName = layoutFilePath cfg
    · have hsame : lsrc = tsrc := by
        rw [heq, hl] at ht
        injection ht with h2
      subst hsame
      simp [renderTemplate, hex, hexl, getCompiled, mapGet, denoRead, ht, hl, heq]
    · simp [renderTemplate, hex, hexl, getCompiled, mapGet, denoRead, ht, hl, heq]
  · intro hnl
    simp [renderTemplate, hex, hnl, getCompiled, mapGet, denoRead, ht]

/-- The template-engine configuration used by the layout witness. -/
def cfgW : TemplateEngineConfig := { baseDir := "templates" }

/-- Template and layout files both present. -/
def fsTmpl : FS :=
  fun p =>
    if p = "templates/post.hbs" then .found "T"
    else if p = "templates/layouts/base.hbs" then .found "L"
    else .absent

/-- Template present, no layout file. -/
def fsTmplNoLayout : FS :=
  fun p => if p = "templates/post.hbs" then .found "T" else .absent

def ctxW : TemplateContext :=
  { content := "c", metadata := emptyMeta, route := "/r", siteTitle := "s" }

/-- C6 witness: with a layout the output is the layout applied to the context
    plus body; without one it is the body alone. -/
theorem renderTemplate_layout_composition_witness :
    (renderTemplate envX cfgW fsTmpl [] "post" ctxW).1 =
      .ok (envX.compile "L" { ctxW with body := some (envX.compile "T" ctxW) })
    ∧ (renderTemplate envX cfgW fsTmplNoLayout [] "post" ctxW).1 =
      .ok (envX.compile "T" ctxW) :=
  ⟨(renderTemplate_layout_composition envX cfgW fsTmpl "post" ctxW "T" rfl).1 "L" rfl,
   (renderTemplate_layout_composition envX cfgW fsTmplNoLayout "post" ctxW "T" rfl).2 rfl⟩

/-- Appending distributes over string data. -/
theorem strData_append (a b : String) : (a ++ b).data = a.data ++ b.data :=
  String.data_append a b

/-- Stripping a leading slash undoes prefixing one. -/
theorem stripLeadingSlash_append (s : String) : stripLeadingSlash ("/" ++ s) = s := by
  have hd : ("/" ++ s).data = '/' :: s.data := by
    rw [strData_append]
    rfl
  have hpre : jsStartsWith ("/" ++ s) "/" = true := by
    simp [jsStartsWith, hd, List.isPrefixOf]
  simp [stripLeadingSlash, hpre, jsDrop, hd]

/-- A slash-prefixed string is never empty. -/
theorem slash_append_ne_empty (s : String) : ("/" ++ s) ≠ "" := by
  intro hcon
  have hdata := congrArg String.data hcon
  rw [strData_append] at hdata
  simp at hdata

/-- Normalizing a slash-prefixed path strips the slash and maps empty to
    index. -/
theorem normalizePath_slash (s : String) :
    normalizePath ("/" ++ s) = if s = "" then "index" else s := by
  simp [normalizePath, stripLeadingSlash_append]

/-- Normalization never yields the empty path. -/
theorem normalizePath_ne_empty (raw : String) : normalizePath raw ≠ "" := by
  unfold normalizePath
  by_cases h : stripLeadingSlash raw = "" <;> simp [h]

/-- Any string extended by .md ends with .md. -/
theorem jsEndsWith_append_md (s : String) : jsEndsWith (s ++ ".md") ".md" = true := by
  rw [jsEndsWith, strData_append, List.isSuffixOf_iff_suffix]
  exact List.suffix_append s.data ".md".data

/-- Suffixing is a no-op on a path already carrying the suffix. -/
theorem ensureMd_append (s : String) : ensureMd (s ++ ".md") = s ++ ".md" := by
  simp [ensureMd, jsEndsWith_append_md]

/-- C8: handleRequest's normalization strips exactly one leading slash and
    maps the empty path to index, and its .md suffixing is idempotent and
    never doubles the suffix; consequently handleRequest treats a raw path
    and its re-slashed normalization identically. -/
theorem handleRequest_normalization :
    (∀ s : String, normalizePath ("/" ++ s) = if s = "" then "index" else s)
    ∧ (∀ s : String, normalizePath ("/" ++ ("/" ++ s)) = "/" ++ s)
    ∧ (∀ s : String, ensureMd (ensureMd s) = ensureMd s)
    ∧ (∀ s : String, ensureMd (s ++ ".md") = s ++ ".md")
    ∧ (∀ (env : Collab) (site : Site) (fs : FS) (cache : Cache) (raw : String),
        handleRequest env site fs cache raw =
          handleRequest env site fs cache ("/" ++ normalizePath raw)) := by
  refine ⟨normalizePath_slash, ?_, ?_, ensureMd_append, ?_⟩
  · intro s
    rw [normalizePath_slash, if_neg (slash_append_ne_empty s)]
  · intro s
    by_cases h : jsEndsWith s ".md" = true
    · simp [ensureMd, h]
    · have h1 : ensureMd s = s ++ ".md" := by
        simp [ensureMd, h]
      rw [h1, ensureMd_append]
  · intro env site fs cache raw
    have h1 : normalizePath ("/" ++ normalizePath raw) = normalizePath raw := by
      rw [normalizePath_slash, if_neg (normalizePath_ne_empty raw)]
    simp only [handleRequest, h1]

/-- Map.set/Map.get interaction. -/
theorem mapGet_mapSet {A : Type} (m : List (String × A)) (k k2 : String) (v : A) :
    mapGet (mapSet m k v) k2 = if k = k2 then some v else mapGet m k2 := by
  induction m with
  | nil =>
    by_cases h : k = k2 <;> simp [mapSet, mapGet, h]
  | cons hd tl ih =>
    obtain ⟨a, b⟩ := hd
    by_cases hak : a = k
    · subst hak
      by_cases h2 : a = k2
      · subst h2
        simp [mapSet, mapGet]
      · simp [mapSet, mapGet, h2]
    · by_cases h2 : a = k2
      · subst h2
        have hk2 : ¬ k = a := fun hh => hak hh.symm
        simp [mapSet, mapGet, hak, hk2]
      · simp [mapSet, mapGet, hak, h2, ih]

/-- Absence from the map equals absence from its keys. -/
theorem mapGet_eq_none_iff {A : Type} (m : List (String × A)) (k : String) :
    mapGet m k = none ↔ k ∉ mapKeys m := by
  induction m with
  | nil => simp [mapGet, mapKeys]
  | cons hd tl ih =>
    obtain ⟨a, b⟩ := hd
    have hkeys : mapKeys ((a, b) :: tl) = a :: mapKeys tl := rfl
    rw [hkeys]
    by_cases hak : a = k
    · subst hak
      simp [mapGet]
    · have hget : mapGet ((a, b) :: tl) k = mapGet tl k := by
        simp [mapGet, hak]
      rw [hget, ih]
      constructor
      · intro h hmem
        rcases List.mem_cons.mp hmem with h1 | h1
        · exact hak h1.symm
        · exact h h1
      · intro h h1
        exact h (List.mem_cons_of_mem a h1)

/-- Map.set keeps the key list when the key is present and appends it
    otherwise. -/
theorem mapKeys_mapSet {A : Type} (m : List (String × A)) (k : String) (v : A) :
    mapKeys (mapSet m k v) =
      if (mapGet m k).isNone then mapKeys m ++ [k] else mapKeys m := by
  induction m with
  | nil => simp [mapSet, mapGet, mapKeys]
  | cons hd tl ih =>
    obtain ⟨a, b⟩ := hd
    by_cases hak : a = k
    · subst hak
      simp [mapSet, mapGet, mapKeys]
    · have h1 : mapSet ((a, b) :: tl) k v = (a, b) :: mapSet tl k v := by
        simp [mapSet, hak]
      have h2 : mapGet ((a, b) :: tl) k = mapGet tl k := by
        simp [mapGet, hak]
      have h3 : mapKeys ((a, b) :: mapSet tl k v) = a :: mapKeys (mapSet tl k v) := rfl
      have h4 : mapKeys ((a, b) :: tl) = a :: mapKeys tl := rfl
      rw [h1, h2, h3, h4, ih]
      by_cases hnone : (mapGet tl k).isNone <;> simp [hnone]

/-- Map.set preserves key uniqueness. -/
theorem mapKeys_nodup_mapSet {A : Type} (m : List (String × A)) (k : String) (v : A)
    (h : (mapKeys m).Nodup) : (mapKeys (mapSet m k v)).Nodup := by
  rw [mapKeys_mapSet]
  by_cases hnone : (mapGet m k).isNone
  · have hk : k ∉ mapKeys m :=
      (mapGet_eq_none_iff m k).1 (Option.isNone_iff_eq_none.mp hnone)
    simp [hnone, List.nodup_append, h, hk]
  · simp [hnone, h]

/-- Folding plugin configs preserves key uniqueness of the plugin map. -/
theorem initFold_nodup (registry : Registry) (cfgs : List PluginConfig) :
    ∀ acc : List (String × Plugin), (mapKeys acc).Nodup →
      (mapKeys (List.foldl (initStep registry) acc cfgs)).Nodup := by
  induction cfgs with
  | nil => intro acc h; simpa using h
  | cons c rest ih =>
    intro acc h
    simp only [List.foldl_cons]
    apply ih
    unfold initStep
    cases loadable registry c with
    | none => exact h
    | some p => exact mapKeys_nodup_mapSet acc c.name p h

/-- Folding plugin configs looks up to the last successful config, falling
    back to the accumulator. -/
theorem initFold_get (registry : Registry) (cfgs : List PluginConfig) :
    ∀ (acc : List (String × Plugin)) (n : String),
      mapGet (List.foldl (initStep registry) acc cfgs) n =
        match lastLoaded registry cfgs n with
        | some p => some p
        | none => mapGet acc n := by
  induction cfgs with
  | nil => intro acc n; simp [lastLoaded]
  | cons c rest ih =>
    intro acc n
    simp only [List.foldl_cons, lastLoaded]
    rw [ih]
    cases hrest : lastLoaded registry rest n with
    | some p => simp
    | none =>
      simp only [Option.some.injEq]
      unfold initStep
      cases hl : loadable registry c with
      | none =>
        by_cases hcn : c.name = n <;> simp [hcn, hl]
      | some p =>
        by_cases hcn : c.name = n <;> simp [hcn, hl, mapGet_mapSet]

/-- C10: initializePlugins keeps at most one plugin per name -- a later
    config with the same name replaces the earlier plugin -- and the map
    resolves every name to the last successfully loaded config for it. -/
theorem initializePlugins_last_wins (registry : Registry) (cfgs : List PluginConfig) :
    (mapKeys (initializePlugins registry cfgs)).Nodup
    ∧ ∀ n, mapGet (initializePlugins registry cfgs) n = lastLoaded registry cfgs n := by
  constructor
  · exact initFold_nodup registry cfgs [] (by simp [mapKeys])
  · intro n
    rw [initializePlugins, initFold_get]
    cases h : lastLoaded registry cfgs n <;> simp [mapGet]
